import Mathlib

set_option maxRecDepth 10000

/-!
Shallow embedding of the maudedb data-acquisition core:

* `src/maude_api_fetch_v2.py` — `MAUDEFetcher.search` / `MAUDEFetcher.fetch_all`
  (the paginated REST fetcher for the US source);
* `src/canada_fetch.py` — `CanadaRecallsFetcher.fetch_all_raw` (TTL cache),
  `CanadaRecallsFetcher.search` (filter + sort) and `RECALL_CLASS_ORDER`;
* `src/maude_ui.py` — `load_subs` / `save_subs`, `sub_to_query`, `build_query`,
  `create_subscription` and `run_subscription` (the subscription lifecycle).

Conventions of the embedding:

* Python strings are `String`; `None`-able UI inputs are `Option String`.
* Python `str.strip()` / `str.lower()` / `str.replace(" ", "+")` are embedded as
  the character-list operations `trimStr` / `lowerStr` / `replaceSpacePlus`
  (ASCII-level model of the Python behaviour; every filter value in the UI is
  ASCII).
* `datetime.date.fromisoformat` is `parseDate` (accepts exactly `YYYY-MM-DD`
  with valid calendar components, as CPython does for this format); a parse
  failure models the raised `ValueError`.
* Network effects are passed explicitly: the REST upstream is a function from
  `(query, limit, skip)` to an `HttpResult`, the bulk upstream is the list a
  successful download would return, and `datetime.now()` / `date.today()` are
  explicit parameters.  Machine integers do not overflow in any of the
  embedded code paths, so `Nat` is used directly.
* The `while True` pagination loop of `fetch_all` is embedded with an explicit
  fuel parameter (`fetchAllLoop`); every theorem about it either holds for all
  fuel values or assumes fuel large enough to cover the finite upstream.
-/

namespace MaudeDB

/-! ### String helpers shared by the embedded modules -/

/-- Embedding of Python `str.strip()`: drop whitespace from both ends. -/
def trimStr (s : String) : String :=
  String.mk (((s.data.dropWhile Char.isWhitespace).reverse.dropWhile Char.isWhitespace).reverse)

/-- Embedding of Python `str.replace(" ", "+")` (single-character needle, so a
character-wise map). -/
def replaceSpacePlus (s : String) : String :=
  String.mk (s.data.map (fun c => if c = ' ' then '+' else c))

/-- Embedding of Python `str.lower()` (ASCII level). -/
def lowerStr (s : String) : String :=
  String.mk (s.data.map Char.toLower)

/-- Test whether `needle` starts `hay` (over characters). -/
def leadsWith : List Char → List Char → Bool
  | [], _ => true
  | _ :: _, [] => false
  | a :: as, b :: bs => a == b && leadsWith as bs

/-- Test whether `needle` occurs contiguously inside `hay`; embeds
Python's `needle in hay` on strings. -/
def occursIn (needle : List Char) : List Char → Bool
  | [] => needle.isEmpty
  | b :: bs => leadsWith needle (b :: bs) || occursIn needle bs

/-- Python `x.lower() in y.lower()` as used by the Canada filters. -/
def lowerIn (needle hay : String) : Bool :=
  occursIn (lowerStr needle).data (lowerStr hay).data

/-- Python `"+AND+".join(parts)` (and `str.join` generally). -/
def joinWith (sep : String) : List String → String
  | [] => ""
  | [p] => p
  | p :: q :: ps => p ++ sep ++ joinWith sep (q :: ps)

/-! ### Calendar dates (`datetime.date.fromisoformat`) -/

/-- Numeric value of an ASCII digit character. -/
def digitVal (c : Char) : Nat := c.toNat - 48

/-- Gregorian leap-year rule, as used by `datetime.date`. -/
def isLeapYear (y : Nat) : Bool := y % 4 == 0 && (y % 100 != 0 || y % 400 == 0)

/-- Days in a month of the proleptic Gregorian calendar. -/
def daysInMonth (y m : Nat) : Nat :=
  if m == 2 then (if isLeapYear y then 29 else 28)
  else if m == 4 || m == 6 || m == 9 || m == 11 then 30
  else 31

/-- Embedding of `datetime.date.fromisoformat`: accepts exactly the ten-character
`YYYY-MM-DD` shape with a valid calendar date (year at least 1); `none` models
the raised `ValueError`. -/
def parseDate (s : String) : Option (Nat × Nat × Nat) :=
  match s.data with
  | [y1, y2, y3, y4, h1, m1, m2, h2, d1, d2] =>
    if y1.isDigit && y2.isDigit && y3.isDigit && y4.isDigit && h1 == '-' &&
       m1.isDigit && m2.isDigit && h2 == '-' && d1.isDigit && d2.isDigit then
      let y := ((digitVal y1 * 10 + digitVal y2) * 10 + digitVal y3) * 10 + digitVal y4
      let m := digitVal m1 * 10 + digitVal m2
      let d := digitVal d1 * 10 + digitVal d2
      if 1 ≤ y && 1 ≤ m && m ≤ 12 && 1 ≤ d && d ≤ daysInMonth y m then
        some (y, m, d)
      else none
    else none
  | _ => none

/-- A parsed date collapsed to one number; comparison of these numbers agrees
with comparison of `datetime.date` values. -/
def dateVal : Nat × Nat × Nat → Nat
  | (y, m, d) => (y * 100 + m) * 100 + d

/-- ASCII digit character for a digit value. -/
def digitChar (n : Nat) : Char := Char.ofNat (48 + n)

/-- Embedding of `date.strftime("%Y%m%d")` on a parsed `(y, m, d)` date (years
are at most four digits, as guaranteed by `parseDate`). -/
def fmtYmd : Nat × Nat × Nat → String
  | (y, m, d) =>
    String.mk [digitChar (y / 1000 % 10), digitChar (y / 100 % 10),
               digitChar (y / 10 % 10), digitChar (y % 10),
               digitChar (m / 10), digitChar (m % 10),
               digitChar (d / 10), digitChar (d % 10)]

/-! ### `maude_api_fetch_v2.py` — the paginated REST fetcher -/

/-- JSON body of a 2xx response from the REST upstream: the optional `results`
array (`none` models a body with no `results` key) and `meta.results.total`. -/
structure ApiResponse (α : Type) where
  results : Option (List α)
  total : Nat

/-- Outcome of one `requests` call as `MAUDEFetcher.search` distinguishes them:
a 2xx body, an HTTP error status raised by `raise_for_status` (404, 500, ...),
or a network-level `RequestException`. -/
inductive HttpResult (α : Type) where
  | ok (body : ApiResponse α)
  | httpError (status : Nat)
  | netError

/-- A REST upstream: maps `(search_query, limit, skip)` to the outcome of the
single HTTP request `MAUDEFetcher.search` issues for those parameters. -/
def RestUpstream (α : Type) := String → Nat → Nat → HttpResult α

namespace MAUDEFetcher

/-- Embedding of `MAUDEFetcher.search`: issues one request with
`limit = min(limit, 1000)`; every `HTTPError` (after printing diagnostics) and
every `RequestException` is swallowed and `None` is returned. -/
def search (upstream : RestUpstream α) (search_query : String) (limit skip : Nat) :
    Option (ApiResponse α) :=
  match upstream search_query (min limit 1000) skip with
  | .ok body => some body
  | .httpError _ => none
  | .netError => none

/-- Python truthiness of the `max_results` argument (`None` and `0` are falsy). -/
def mrActive : Option Nat → Bool
  | none => false
  | some m => m != 0

/-- The `while True` body of `MAUDEFetcher.fetch_all`, with explicit fuel.
Mirrors the source: a page giving no data or no `results` key ends the loop;
otherwise the page is appended, the loop ends when the page is short or the
accumulated count reaches a truthy `max_results`, and also when the advanced
`skip` reaches a truthy `max_results`. -/
def fetchAllLoop (upstream : RestUpstream α) (search_query : String)
    (max_results : Option Nat) : Nat → Nat → List α → List α
  | 0, _, acc => acc
  | fuel + 1, skip, acc =>
    match search upstream search_query 1000 skip with
    | none => acc
    | some data =>
      match data.results with
      | none => acc
      | some results =>
        let acc2 := acc ++ results
        if results.length < 1000 ∨ (mrActive max_results ∧ acc2.length ≥ max_results.getD 0) then
          acc2
        else
          let skip2 := skip + 1000
          if mrActive max_results ∧ skip2 ≥ max_results.getD 0 then acc2
          else fetchAllLoop upstream search_query max_results fuel skip2 acc2

/-- Embedding of `MAUDEFetcher.fetch_all`: run the pagination loop from
`skip = 0` with an empty accumulator, then return
`all_results[:max_results] if max_results else all_results`. -/
def fetch_all (upstream : RestUpstream α) (search_query : String)
    (max_results : Option Nat) (fuel : Nat) : List α :=
  let acc := fetchAllLoop upstream search_query max_results fuel 0 []
  if mrActive max_results then acc.take (max_results.getD 0) else acc

end MAUDEFetcher

/-- A well-behaved REST upstream holding the finite dataset `db`: the page at
offset `skip` is the corresponding slice of `db`, and `meta.results.total` is
`db.length`. -/
def pageUpstream (db : List α) : RestUpstream α :=
  fun _ limit skip => .ok ⟨some ((db.drop skip).take limit), db.length⟩

/-! ### `canada_fetch.py` — bulk snapshot cache, filter and sort -/

/-- One record of the Canada bulk JSON, restricted to the keys the code reads;
a missing key is the empty string (the code reads every key through
`r.get(k) or ""` or with an equivalent default), except `Archived` whose
`r.get("Archived", "0")` default is modelled by storing the string itself. -/
structure CanadaRecord where
  nid : String
  title : String
  organization : String
  product : String
  issue : String
  category : String
  recall_class : String
  last_updated : String
  archived : String
deriving DecidableEq

/-- Embedding of the `RECALL_CLASS_ORDER` severity table together with the
`.get(x, 3)` default used at the sort site: `Type I` before `Type II` before
`Type III`, anything else (including blank) last. -/
def RECALL_CLASS_ORDER (s : String) : Nat :=
  if s = "Type I" then 0 else if s = "Type II" then 1 else if s = "Type III" then 2 else 3

namespace CanadaRecallsFetcher

/-- In-memory cache slot of `CanadaRecallsFetcher`: `_cache` and `_cache_time`
(the fetch time in whole seconds). -/
structure CacheState (α : Type) where
  cache : Option (List α)
  cacheTime : Option Nat
deriving DecidableEq

/-- Value of `_cache_ttl_minutes` of the fetcher. -/
def ttlMinutes : Nat := 60

/-- Result of `fetch_all_raw`: the returned data, the cache slot afterwards, and
whether a network download was performed. -/
structure FetchResult (α : Type) where
  data : List α
  state : CacheState α
  fetched : Bool
deriving DecidableEq

/-- Embedding of `CanadaRecallsFetcher.fetch_all_raw` on the success path.
`now` and the cached `_cache_time` are clock readings in whole seconds with
`now ≥ _cache_time`; the Python guard `(now - self._cache_time).seconds <
self._cache_ttl_minutes * 60` compares the **whole-seconds component** of the
`timedelta` — `timedelta.seconds` is the elapsed time modulo one day (86400
seconds), not the total elapsed seconds — which the embedding reproduces
exactly.  `upstream` is the body a successful download returns. -/
def fetch_all_raw (st : CacheState α) (now : Nat) (upstream : List α)
    (force : Bool) : FetchResult α :=
  match st.cache, st.cacheTime with
  | some c, some t =>
    if force = false ∧ (now - t) % 86400 < ttlMinutes * 60 then ⟨c, st, false⟩
    else ⟨upstream, ⟨some upstream, some now⟩, true⟩
  | _, _ => ⟨upstream, ⟨some upstream, some now⟩, true⟩

/-- Embedding of `CanadaRecallsFetcher.fetch_medical_devices` applied to a
downloaded snapshot: keep records whose `Organization` is `Medical devices`. -/
def fetch_medical_devices (raw : List CanadaRecord) : List CanadaRecord :=
  raw.filter (fun r => r.organization == "Medical devices")

/-- The `date_to` half of the date filter inside the `try` block of
`CanadaRecallsFetcher.search`.  `some b` means the block ran without an
exception and `b` says whether the record survives; `none` means
`date.fromisoformat(date_to)` raised `ValueError` (caught by the surrounding
`except`, so the record is kept). -/
def dateStepTo (date_to : String) (rd : Nat) : Option Bool :=
  if date_to ≠ "" then
    match parseDate date_to with
    | none => none
    | some t => some (decide (rd ≤ dateVal t))
  else some true

/-- The bound checks inside the `try` block, given an already parsed record
date `rd`: first `date_from` (a record strictly before it is dropped), then
`date_to` (a record strictly after it is dropped); `none` models a
`ValueError` raised while parsing a bound. -/
def dateStepTry (date_from date_to : String) (rd : Nat) : Option Bool :=
  if date_from ≠ "" then
    match parseDate date_from with
    | none => none
    | some f => if rd < dateVal f then some false else dateStepTo date_to rd
  else dateStepTo date_to rd

/-- The full date-filter step of `CanadaRecallsFetcher.search` for one record:
an empty `Last updated` field skips the step (record kept); an unparsable one
raises inside `try` and is caught (record kept); otherwise the bound checks
run, with any `ValueError` on a bound likewise keeping the record. -/
def dateStep (date_from date_to rec_date_str : String) : Bool :=
  if rec_date_str = "" then true
  else
    match parseDate rec_date_str with
    | none => true
    | some rd => (dateStepTry date_from date_to (dateVal rd)).getD true

/-- The per-record filter chain of `CanadaRecallsFetcher.search`: archived
flag, date range, product/title substring, category substring, exact recall
class after trimming, issue substring. -/
def passes (product category recall_class issue date_from date_to : String)
    (include_archived : Bool) (r : CanadaRecord) : Bool :=
  (include_archived || r.archived != "1") &&
  dateStep date_from date_to r.last_updated &&
  (product == "" || lowerIn product (r.product ++ " " ++ r.title)) &&
  (category == "" || lowerIn category r.category) &&
  (recall_class == "" || recall_class == trimStr r.recall_class) &&
  (issue == "" || lowerIn issue r.issue)

/-- Primary sort key of the result frame: `RECALL_CLASS_ORDER` of the record's
recall class. -/
def classOrderKey (r : CanadaRecord) : Nat := RECALL_CLASS_ORDER r.recall_class

/-- Secondary sort key: the record's `Last updated` parsed as a date
(`pd.to_datetime(..., errors="coerce")`; `none` models `NaT`). -/
def dateKey (r : CanadaRecord) : Option Nat := (parseDate r.last_updated).map dateVal

/-- Date comparison used by the sort: descending (`ascending=False`), with
unparsable dates (`NaT`) after every parsed date (`na_position="last"`). -/
def dateLe : Option Nat → Option Nat → Bool
  | some a, some b => decide (b ≤ a)
  | some _, none => true
  | none, some _ => false
  | none, none => true

/-- The row order produced by
`df.sort_values(["_class_order", "last_updated"], ascending=[True, False])`:
class rank ascending, then date descending with `NaT` last. -/
def recLe (a b : CanadaRecord) : Bool :=
  decide (classOrderKey a < classOrderKey b) ||
  (classOrderKey a == classOrderKey b && dateLe (dateKey a) (dateKey b))

/-- The order `recLe` as a decidable relation, for use with the sort. -/
def recLeP (a b : CanadaRecord) : Prop := recLe a b = true

instance : DecidableRel recLeP := fun a b => by unfold recLeP; infer_instance

/-- Embedding of `CanadaRecallsFetcher.search` applied to a downloaded
snapshot `raw`: restrict to medical devices, filter, then sort by
`(_class_order asc, last_updated desc, NaT last)`.  The pandas key sort is
modelled by `List.insertionSort` over `recLeP` (the claims proved below
concern only the key order of the output, which any comparison sort for these
keys satisfies). -/
def search (product category recall_class issue date_from date_to : String)
    (include_archived : Bool) (raw : List CanadaRecord) : List CanadaRecord :=
  List.insertionSort recLeP
    ((fetch_medical_devices raw).filter
      (passes product category recall_class issue date_from date_to include_archived))

end CanadaRecallsFetcher

/-! ### `maude_ui.py` — subscriptions -/

/-- One entry of `subscriptions.json`, restricted to the keys the code reads.
US entries leave the Canada-only fields empty and vice versa, matching the
dictionaries `create_subscription` writes; `hit_count` is optional because the
code reads it with `s.get("hit_count", 0)`. -/
structure Subscription where
  id : String
  name : String
  country : String
  device : String
  manufacturer : String
  event_type : String
  outcome : String
  product : String
  category : String
  recall_class : String
  issue : String
  created : String
  last_run : String
  hit_count : Option Nat
deriving DecidableEq

/-- State of the `subscriptions.json` document: absent, present but not valid
JSON, or a parsed list of subscriptions. -/
inductive SubsFile where
  | missing
  | corrupt
  | good (subs : List Subscription)
deriving DecidableEq

/-- Embedding of `load_subs`: a missing file yields `[]`, and the bare
`except: return []` turns an unparsable file into `[]` as well. -/
def load_subs : SubsFile → List Subscription
  | .missing => []
  | .corrupt => []
  | .good subs => subs

/-- Embedding of `save_subs`: the document is overwritten wholesale with the
given list. -/
def save_subs (subs : List Subscription) : SubsFile := .good subs

/-- Embedding of `sub_to_query`: one clause per truthy US field (`device`,
`manufacturer`, `event_type`), joined with `+AND+`; values of the first two
are stripped and space-escaped, `event_type` is used verbatim. -/
def sub_to_query (sub : Subscription) : String :=
  joinWith "+AND+" (
    (if sub.device ≠ "" then
       ["device.generic_name:\"" ++ replaceSpacePlus (trimStr sub.device) ++ "\""]
     else []) ++
    (if sub.manufacturer ≠ "" then
       ["device.manufacturer_d_name:\"" ++ replaceSpacePlus (trimStr sub.manufacturer) ++ "\""]
     else []) ++
    (if sub.event_type ≠ "" then ["event_type:\"" ++ sub.event_type ++ "\""] else []))

/-- Python truthiness of an optional string field (`None` and `""` are falsy). -/
def strTruthy : Option String → Bool
  | none => false
  | some s => s != ""

/-- Embedding of `_fmt` on a string date: `date.fromisoformat` then
`strftime("%Y%m%d")`; `none` models the `ValueError` raised on an unparsable
date, which propagates out of `build_query`. -/
def fmtIso (s : String) : Option String := (parseDate s).map fmtYmd

/-- The `date_received` clause of `build_query`: both bounds, a lower bound
with the `99991231` sentinel, an upper bound with the `19000101` sentinel, or
no clause; `none` models a `ValueError` from `_fmt`. -/
def buildDateClause (date_from date_to : Option String) : Option (List String) :=
  if strTruthy date_from ∧ strTruthy date_to then
    match fmtIso (date_from.getD ""), fmtIso (date_to.getD "") with
    | some f, some t => some ["date_received:[" ++ f ++ "+TO+" ++ t ++ "]"]
    | _, _ => none
  else if strTruthy date_from then
    match fmtIso (date_from.getD "") with
    | some f => some ["date_received:[" ++ f ++ "+TO+99991231]"]
    | none => none
  else if strTruthy date_to then
    match fmtIso (date_to.getD "") with
    | some t => some ["date_received:[19000101+TO+" ++ t ++ "]"]
    | none => none
  else some []

/-- The clause for a text field guarded by `if value and value.strip():`, with
the value stripped and space-escaped before quoting. -/
def escClause (field_path : Option String) (lit : String) : List String :=
  match field_path with
  | none => []
  | some s => if trimStr s ≠ "" then [lit ++ replaceSpacePlus (trimStr s) ++ "\""] else []

/-- The `event_type` clause of `build_query`: guarded by
`if event_type and event_type.strip():` but quoting the raw value. -/
def etClauseOf (event_type : Option String) : List String :=
  match event_type with
  | none => []
  | some s => if trimStr s ≠ "" then ["event_type:\"" ++ s ++ "\""] else []

/-- Embedding of `build_query`: the date clause then the three field clauses,
joined with `+AND+`; when no clause was produced the fixed default
`event_type:"Malfunction"` is returned instead of an empty string.  `none`
models the `ValueError` a malformed date bound raises. -/
def build_query (date_from date_to device manufacturer event_type : Option String) :
    Option String :=
  match buildDateClause date_from date_to with
  | none => none
  | some dparts =>
    let parts := dparts ++ escClause device "device.generic_name:\"" ++
      escClause manufacturer "device.manufacturer_d_name:\"" ++ etClauseOf event_type
    some (if parts = [] then "event_type:\"Malfunction\"" else joinWith "+AND+" parts)

/-- Embedding of `create_subscription`: reject a blank name, reject an entry
with no truthy filter for its country, otherwise append the new entry to the
loaded list and save.  The generated id and the creation timestamp are
explicit parameters; the boolean reports whether an entry was created. -/
def create_subscription (file : SubsFile)
    (name country device mfr etype outcome : String)
    (ca_product ca_category ca_recall_class ca_issue : String)
    (new_id created : String) : SubsFile × Bool :=
  if trimStr name = "" then (file, false)
  else
    let subs := load_subs file
    if country = "Canada" then
      if trimStr ca_product = "" ∧ trimStr ca_category = "" ∧
         trimStr ca_recall_class = "" ∧ trimStr ca_issue = "" then (file, false)
      else
        let newSub : Subscription :=
          { id := new_id, name := trimStr name, country := "Canada",
            device := "", manufacturer := "", event_type := "", outcome := "",
            product := trimStr ca_product, category := trimStr ca_category,
            recall_class := ca_recall_class, issue := trimStr ca_issue,
            created := created, last_run := "", hit_count := some 0 }
        (save_subs (subs ++ [newSub]), true)
    else
      if trimStr device = "" ∧ trimStr mfr = "" ∧
         trimStr etype = "" ∧ trimStr outcome = "" then (file, false)
      else
        let newSub : Subscription :=
          { id := new_id, name := trimStr name, country := "US",
            device := trimStr device, manufacturer := trimStr mfr,
            event_type := etype, outcome := outcome,
            product := "", category := "", recall_class := "", issue := "",
            created := created, last_run := "", hit_count := some 0 }
        (save_subs (subs ++ [newSub]), true)

/-- The body of the metadata update loop in `run_subscription`: a subscription
with the triggered id gets `last_run = now` and
`hit_count = hit_count.get(0) + count`; every other entry is untouched. -/
def run_update (sub_id now : String) (count : Nat) (s : Subscription) : Subscription :=
  if s.id = sub_id then
    { s with last_run := now, hit_count := some (s.hit_count.getD 0 + count) }
  else s

/-- The whole `for s in subs:` update loop of `run_subscription`. -/
def run_updateSubs (subs : List Subscription) (sub_id now : String) (count : Nat) :
    List Subscription :=
  subs.map (run_update sub_id now count)

/-- The query `run_subscription` sends for a US subscription: the stored
filter's query constrained to the trailing 90-day window
`[today - 90 days, today]` (the two formatted dates are explicit inputs). -/
def usFullQuery (from_date to_date : String) (sub : Subscription) : String :=
  "date_received:[" ++ from_date ++ "+TO+" ++ to_date ++ "]+AND+" ++ sub_to_query sub

/-- Observable outcome of one `run_subscription` invocation: unknown id,
US entry whose synthesized query is empty (warning, no update), an exception
caught by the surrounding `except` (error alert, no update), or a completed
run with its match count. -/
inductive RunOutcome where
  | notFound
  | noFilters
  | fetchError
  | success (count : Nat)
deriving DecidableEq

/-- Embedding of `run_subscription` for a triggered subscription id.
`canada` is the outcome of the bulk fetch inside `canada_fetcher.search`
(`Except.error` models the `requests` exception propagating out of
`fetch_all_raw`, which the callback's `except Exception` catches); `us` is the
REST upstream consumed by `MAUDEFetcher.fetch_all`, which swallows request
failures page by page and never raises.  On a completed run the stored list is
updated through `run_updateSubs` and saved; on `notFound`, `noFilters` and
`fetchError` the stored list is left as loaded. -/
def run_subscription (subs : List Subscription) (sub_id now : String)
    (from_date to_date : String) (us : RestUpstream α) (fuel : Nat)
    (canada : Except Unit (List CanadaRecord)) : RunOutcome × List Subscription :=
  match subs.find? (fun s => s.id == sub_id) with
  | none => (.notFound, subs)
  | some sub =>
    if sub.country == "Canada" then
      match canada with
      | .error _ => (.fetchError, subs)
      | .ok raw =>
        let df := CanadaRecallsFetcher.search sub.product sub.category
          sub.recall_class sub.issue "" "" false raw
        (.success df.length, run_updateSubs subs sub_id now df.length)
    else
      if sub_to_query sub == "" then (.noFilters, subs)
      else
        let results := MAUDEFetcher.fetch_all us (usFullQuery from_date to_date sub)
          (some 200) fuel
        (.success results.length, run_updateSubs subs sub_id now results.length)

/-! ### Concrete fixtures used by the claim witnesses and counterexamples -/

/-- A REST upstream whose every request fails with HTTP 500. -/
def us500 : RestUpstream Nat := fun _ _ _ => .httpError 500

/-- A REST upstream whose every request fails at the network level. -/
def usNet : RestUpstream Nat := fun _ _ _ => .netError

/-- A REST upstream that serves one full page (1000 records, total 2000) and
then fails every further request with HTTP 500. -/
def usOnePageThenFail : RestUpstream Nat :=
  fun _ _ skip => if skip == 0 then .ok ⟨some (List.replicate 1000 0), 2000⟩ else .httpError 500

/-- A three-record dataset for the well-behaved upstream. -/
def demoDb : List Nat := [1, 2, 3]

/-- A stored US subscription (device and event type filters, an outcome
choice, never run). -/
def usSubEx : Subscription :=
  { id := "s1", name := "pm", country := "US", device := "pacemaker", manufacturer := "",
    event_type := "Death", outcome := "Hospitalization", product := "", category := "",
    recall_class := "", issue := "", created := "2024-01-01T00:00:00", last_run := "",
    hit_count := some 0 }

/-- The same US subscription with a different stored outcome only. -/
def usSubExOut : Subscription := { usSubEx with id := "s2", outcome := "" }

/-- A stored Canada subscription. -/
def caSubEx : Subscription :=
  { id := "c1", name := "ca", country := "Canada", device := "", manufacturer := "",
    event_type := "", outcome := "", product := "pump", category := "", recall_class := "",
    issue := "", created := "2024-01-01T00:00:00", last_run := "2024-02-01T00:00:00",
    hit_count := some 4 }

/-- A Canada bulk record for a medical device, parameterized by recall class
and last-updated date. -/
def mkCanadaRec (cls date : String) : CanadaRecord :=
  { nid := "1", title := "t", organization := "Medical devices", product := "p", issue := "i",
    category := "c", recall_class := cls, last_updated := date, archived := "0" }

/-- Class `Type I` record with the shared date. -/
def c6recI : CanadaRecord := mkCanadaRec "Type I" "2024-01-01"

/-- Class `Type II` record with the shared date. -/
def c6recII : CanadaRecord := mkCanadaRec "Type II" "2024-01-01"

/-- Class `Type III` record with the shared date. -/
def c6recIII : CanadaRecord := mkCanadaRec "Type III" "2024-01-01"

/-- The subscription `create_subscription` writes for the concrete C4 inputs. -/
def c4NewSub : Subscription :=
  { id := "id1", name := "My sub", country := "US", device := "pacemaker", manufacturer := "",
    event_type := "", outcome := "", product := "", category := "", recall_class := "",
    issue := "", created := "2024-01-01T00:00:00", last_run := "", hit_count := some 0 }

/-- The sort order `recLeP` is total: any two records are comparable. -/
instance : IsTotal CanadaRecord CanadaRecallsFetcher.recLeP := by
  constructor
  intro a b
  simp only [CanadaRecallsFetcher.recLeP, CanadaRecallsFetcher.recLe, Bool.or_eq_true,
    decide_eq_true_eq, Bool.and_eq_true, beq_iff_eq]
  rcases Nat.lt_trichotomy (CanadaRecallsFetcher.classOrderKey a)
      (CanadaRecallsFetcher.classOrderKey b) with h | h | h
  · exact Or.inl (Or.inl h)
  · have hd : CanadaRecallsFetcher.dateLe (CanadaRecallsFetcher.dateKey a)
          (CanadaRecallsFetcher.dateKey b) = true ∨
        CanadaRecallsFetcher.dateLe (CanadaRecallsFetcher.dateKey b)
          (CanadaRecallsFetcher.dateKey a) = true := by
      cases CanadaRecallsFetcher.dateKey a <;> cases CanadaRecallsFetcher.dateKey b <;>
        simp [CanadaRecallsFetcher.dateLe] <;> omega
    rcases hd with hd | hd
    · exact Or.inl (Or.inr ⟨h, hd⟩)
    · exact Or.inr (Or.inr ⟨h.symm, hd⟩)
  · exact Or.inr (Or.inl h)

/-- The sort order `recLeP` is transitive. -/
instance : IsTrans CanadaRecord CanadaRecallsFetcher.recLeP := by
  constructor
  intro a b c hab hbc
  simp only [CanadaRecallsFetcher.recLeP, CanadaRecallsFetcher.recLe, Bool.or_eq_true,
    decide_eq_true_eq, Bool.and_eq_true, beq_iff_eq] at hab hbc ⊢
  have hdl : ∀ x y z : Option Nat, CanadaRecallsFetcher.dateLe x y = true →
      CanadaRecallsFetcher.dateLe y z = true → CanadaRecallsFetcher.dateLe x z = true := by
    intro x y z hxy hyz
    cases x <;> cases y <;> cases z <;> simp [CanadaRecallsFetcher.dateLe] at * <;> omega
  rcases hab with h1 | ⟨h1, h1d⟩ <;> rcases hbc with h2 | ⟨h2, h2d⟩
  · exact Or.inl (by omega)
  · exact Or.inl (by omega)
  · exact Or.inl (by omega)
  · exact Or.inr ⟨by omega, hdl _ _ _ h1d h2d⟩

/-! ### Helper lemmas -/

/-- String append acts as list append on the underlying characters. -/
theorem strData_append (s t : String) : (s ++ t).data = s.data ++ t.data := by
  cases s
  cases t
  rfl

/-- A string with a non-empty left factor is non-empty. -/
theorem append_ne_left (s t : String) (h : s ≠ "") : s ++ t ≠ "" := by
  intro he
  apply h
  have hd : (s ++ t).data = ([] : List Char) := by rw [he]
  rw [strData_append] at hd
  rcases List.append_eq_nil.mp hd with ⟨h1, _⟩
  cases s
  simp only at h1
  rw [h1]

/-- Joining a non-empty list of non-empty parts gives a non-empty string. -/
theorem joinWith_ne_empty (sep : String) :
    ∀ l : List String, l ≠ [] → (∀ p ∈ l, p ≠ "") → joinWith sep l ≠ ""
  | [], h, _ => absurd rfl h
  | [p], _, hp => by simpa [joinWith] using hp p (by simp)
  | p :: q :: t, _, hp => by
    have h1 : p ≠ "" := hp p (by simp)
    simpa [joinWith] using append_ne_left (p ++ sep) (joinWith sep (q :: t))
      (append_ne_left p sep h1)

/-- Every member of a joined list occurs contiguously in the join. -/
theorem joinWith_split (sep : String) :
    ∀ (l : List String) (c : String), c ∈ l →
      ∃ pre post, joinWith sep l = pre ++ c ++ post
  | [], c, hc => absurd hc (by simp)
  | [p], c, hc => by
    have : c = p := by simpa using hc
    exact ⟨"", "", by simp [joinWith, this]⟩
  | p :: q :: t, c, hc => by
    rcases List.mem_cons.mp hc with hcp | hct
    · exact ⟨"", sep ++ joinWith sep (q :: t), by
        simp [joinWith, hcp, String.append_assoc]⟩
    · obtain ⟨pre, post, hpp⟩ := joinWith_split sep (q :: t) c hct
      exact ⟨p ++ sep ++ pre, post, by
        simp [joinWith, hpp, String.append_assoc]⟩

/-- Any raised HTTP status (4xx, 5xx, ...) makes `MAUDEFetcher.search` return
`None`. -/
theorem search_none_of_httpError (us : RestUpstream α) (q : String) (l k c : Nat)
    (h : us q (min l 1000) k = .httpError c) : MAUDEFetcher.search us q l k = none := by
  unfold MAUDEFetcher.search
  rw [h]

/-- A network-level request failure makes `MAUDEFetcher.search` return `None`. -/
theorem search_none_of_netError (us : RestUpstream α) (q : String) (l k : Nat)
    (h : us q (min l 1000) k = .netError) : MAUDEFetcher.search us q l k = none := by
  unfold MAUDEFetcher.search
  rw [h]

/-- If the first page yields no data, `fetch_all` returns the empty list. -/
theorem fetch_all_nil_of_first_none (us : RestUpstream α) (q : String)
    (mr : Option Nat) (fuel : Nat) (h : MAUDEFetcher.search us q 1000 0 = none) :
    MAUDEFetcher.fetch_all us q mr fuel = [] := by
  cases fuel <;> simp [MAUDEFetcher.fetch_all, MAUDEFetcher.fetchAllLoop, h]

/-- Pagination over the well-behaved upstream with `max_results` falsy: the
loop appends every record from the current offset on, given enough fuel. -/
theorem fetchAllLoop_pageUpstream (db : List α) (q : String) (mr : Option Nat)
    (hmr : MAUDEFetcher.mrActive mr = false) :
    ∀ (fuel skip : Nat) (acc : List α), db.length ≤ skip + 1000 * fuel →
      MAUDEFetcher.fetchAllLoop (pageUpstream db) q mr fuel skip acc = acc ++ db.drop skip := by
  intro fuel
  induction fuel with
  | zero =>
    intro skip acc h
    rw [List.drop_eq_nil_of_le (by omega), List.append_nil]
    rfl
  | succ n ih =>
    intro skip acc h
    rw [MAUDEFetcher.fetchAllLoop]
    simp only [MAUDEFetcher.search, pageUpstream, Nat.min_self]
    by_cases hlen : ((db.drop skip).take 1000).length < 1000
    · rw [if_pos (Or.inl hlen)]
      have hsmall : (db.drop skip).length ≤ 1000 := by
        rw [List.length_take] at hlen
        omega
      rw [List.take_of_length_le hsmall]
    · rw [if_neg (by simp only [hmr, Bool.false_eq_true, false_and, or_false]; exact hlen),
        if_neg (by simp [hmr])]
      rw [ih (skip + 1000) _ (by omega)]
      rw [List.append_assoc]
      have hdd : db.drop (skip + 1000) = (db.drop skip).drop 1000 := by
        rw [List.drop_drop]
      rw [hdd, List.take_append_drop]

/-- Running `fetch_all` over the well-behaved upstream with `max_results` falsy
returns the whole dataset. -/
theorem fetch_all_pageUpstream (db : List α) (q : String) (mr : Option Nat)
    (hmr : MAUDEFetcher.mrActive mr = false) (fuel : Nat)
    (hfuel : db.length ≤ 1000 * fuel) :
    MAUDEFetcher.fetch_all (pageUpstream db) q mr fuel = db := by
  unfold MAUDEFetcher.fetch_all
  rw [fetchAllLoop_pageUpstream db q mr hmr fuel 0 [] (by omega)]
  simp [hmr]

/-- Every clause the date branch of `build_query` emits is non-empty. -/
theorem buildDateClause_mem_ne (date_from date_to : Option String) (dparts : List String)
    (h : buildDateClause date_from date_to = some dparts) : ∀ p ∈ dparts, p ≠ "" := by
  unfold buildDateClause at h
  split_ifs at h
  · split at h
    · rcases h with ⟨⟩
      intro p hp
      rcases List.mem_singleton.mp hp with ⟨⟩
      exact append_ne_left _ _ (append_ne_left _ _ (append_ne_left _ _
        (append_ne_left _ _ (by decide))))
    · cases h
  · split at h
    · rcases h with ⟨⟩
      intro p hp
      rcases List.mem_singleton.mp hp with ⟨⟩
      exact append_ne_left _ _ (append_ne_left _ _ (by decide))
    · cases h
  · split at h
    · rcases h with ⟨⟩
      intro p hp
      rcases List.mem_singleton.mp hp with ⟨⟩
      exact append_ne_left _ _ (append_ne_left _ _ (by decide))
    · cases h
  · rcases h with ⟨⟩
    intro p hp
    simp at hp

/-- Every clause `escClause` emits is non-empty when its literal is. -/
theorem escClause_mem_ne (o : Option String) (lit : String) (hlit : lit ≠ "") :
    ∀ p ∈ escClause o lit, p ≠ "" := by
  intro p hp
  unfold escClause at hp
  match o with
  | none => simp at hp
  | some s =>
    simp only at hp
    split at hp
    · rcases List.mem_singleton.mp hp with ⟨⟩
      exact append_ne_left _ _ (append_ne_left _ _ hlit)
    · simp at hp

/-- Every clause the event-type branch of `build_query` emits is non-empty. -/
theorem etClauseOf_mem_ne (o : Option String) : ∀ p ∈ etClauseOf o, p ≠ "" := by
  intro p hp
  unfold etClauseOf at hp
  match o with
  | none => simp at hp
  | some s =>
    simp only at hp
    split at hp
    · rcases List.mem_singleton.mp hp with ⟨⟩
      exact append_ne_left _ _ (append_ne_left _ _ (by decide))
    · simp at hp

/-- Claim C8: in the date-range step of the Canada bulk search, a record whose
date field is missing is kept, a record whose date field does not parse is
kept even when a `date_from` or `date_to` bound is requested, a record whose
parsed date falls strictly before a parsed `date_from` or strictly after a
parsed `date_to` is excluded, and a record whose parsed date satisfies the
requested inclusive bounds is kept. -/
theorem c8_date_filter_permissive :
    (∀ date_from date_to : String, CanadaRecallsFetcher.dateStep date_from date_to "" = true) ∧
    (∀ date_from date_to s : String, parseDate s = none →
      CanadaRecallsFetcher.dateStep date_from date_to s = true) ∧
    (∀ (date_from date_to s : String) (rd f : Nat × Nat × Nat),
      parseDate s = some rd → date_from ≠ "" → parseDate date_from = some f →
      dateVal rd < dateVal f → CanadaRecallsFetcher.dateStep date_from date_to s = false) ∧
    (∀ (date_from date_to s : String) (rd t : Nat × Nat × Nat),
      parseDate s = some rd → date_to ≠ "" → parseDate date_to = some t →
      (date_from = "" ∨ ∃ f, parseDate date_from = some f ∧ ¬ dateVal rd < dateVal f) →
      dateVal t < dateVal rd → CanadaRecallsFetcher.dateStep date_from date_to s = false) ∧
    (∀ (date_from date_to s : String) (rd : Nat × Nat × Nat),
      parseDate s = some rd →
      (date_from = "" ∨ ∃ f, parseDate date_from = some f ∧ ¬ dateVal rd < dateVal f) →
      (date_to = "" ∨ ∃ t, parseDate date_to = some t ∧ dateVal rd ≤ dateVal t) →
      CanadaRecallsFetcher.dateStep date_from date_to s = true) := by
  refine ⟨?_, ?_, ?_, ?_, ?_⟩
  · intro df dt
    simp [CanadaRecallsFetcher.dateStep]
  · intro df dt s h
    by_cases hs : s = ""
    · simp [CanadaRecallsFetcher.dateStep, hs]
    · simp [CanadaRecallsFetcher.dateStep, hs, h]
  · intro df dt s rd f hs hdf hf hlt
    have hs' : s ≠ "" := by
      intro h0
      rw [h0] at hs
      simp [parseDate] at hs
    simp [CanadaRecallsFetcher.dateStep, CanadaRecallsFetcher.dateStepTry, hs', hs, hdf, hf, hlt]
  · intro df dt s rd t hs hdt ht hfrom hlt
    have hs' : s ≠ "" := by
      intro h0
      rw [h0] at hs
      simp [parseDate] at hs
    have hto : CanadaRecallsFetcher.dateStepTo dt (dateVal rd) = some false := by
      simp [CanadaRecallsFetcher.dateStepTo, hdt, ht]
      omega
    rcases hfrom with hdf | ⟨f, hf, hnlt⟩
    · simp [CanadaRecallsFetcher.dateStep, CanadaRecallsFetcher.dateStepTry, hs', hs, hdf, hto]
    · by_cases hdf : df = ""
      · simp [CanadaRecallsFetcher.dateStep, CanadaRecallsFetcher.dateStepTry, hs', hs, hdf, hto]
      · simp [CanadaRecallsFetcher.dateStep, CanadaRecallsFetcher.dateStepTry, hs', hs, hdf, hf,
          hnlt, hto]
  · intro df dt s rd hs hfrom hto
    have hs' : s ≠ "" := by
      intro h0
      rw [h0] at hs
      simp [parseDate] at hs
    have hto' : CanadaRecallsFetcher.dateStepTo dt (dateVal rd) = some true := by
      rcases hto with hdt | ⟨t, ht, hle⟩
      · simp [CanadaRecallsFetcher.dateStepTo, hdt]
      · by_cases hdt : dt = ""
        · simp [CanadaRecallsFetcher.dateStepTo, hdt]
        · simp [CanadaRecallsFetcher.dateStepTo, hdt, ht, hle]
    rcases hfrom with hdf | ⟨f, hf, hnlt⟩
    · simp [CanadaRecallsFetcher.dateStep, CanadaRecallsFetcher.dateStepTry, hs', hs, hdf, hto']
    · by_cases hdf : df = ""
      · simp [CanadaRecallsFetcher.dateStep, CanadaRecallsFetcher.dateStepTry, hs', hs, hdf, hto']
      · simp [CanadaRecallsFetcher.dateStep, CanadaRecallsFetcher.dateStepTry, hs', hs, hdf, hf,
          hnlt, hto']

/-- Witness for C8 at concrete dates: a missing date and an unparsable date
are kept under bounds, an early and a late parsed date are excluded, and an
in-range parsed date (inclusive bounds) is kept. -/
theorem c8_date_filter_permissive_witness :
    CanadaRecallsFetcher.dateStep "2024-01-01" "2024-12-31" "" = true ∧
    CanadaRecallsFetcher.dateStep "2024-01-01" "2024-12-31" "not-a-date" = true ∧
    CanadaRecallsFetcher.dateStep "2024-01-01" "" "2023-12-31" = false ∧
    CanadaRecallsFetcher.dateStep "" "2024-06-30" "2024-07-01" = false ∧
    CanadaRecallsFetcher.dateStep "2024-01-01" "2024-12-31" "2024-06-15" = true :=
  ⟨c8_date_filter_permissive.1 _ _,
   c8_date_filter_permissive.2.1 _ _ _ (by decide),
   c8_date_filter_permissive.2.2.1 _ _ _ (2023, 12, 31) (2024, 1, 1)
     (by decide) (by decide) (by decide) (by decide),
   c8_date_filter_permissive.2.2.2.1 _ _ _ (2024, 7, 1) (2024, 6, 30)
     (by decide) (by decide) (by decide) (Or.inl rfl) (by decide),
   c8_date_filter_permissive.2.2.2.2 _ _ _ (2024, 6, 15) (by decide)
     (Or.inr ⟨(2024, 1, 1), by decide, by decide⟩)
     (Or.inr ⟨(2024, 12, 31), by decide, by decide⟩)⟩

/-- Claim C9: `build_query` never returns an empty query string; with no
populated field it returns the fixed default clause; and with a populated
device field the returned string contains the `device.generic_name:"..."`
clause for the stripped, space-escaped device value.  (Determinism is
inherent: the embedding is a pure function of exactly the input fields.) -/
theorem c9_query_builder :
    (∀ date_from date_to device manufacturer event_type q,
      build_query date_from date_to device manufacturer event_type = some q → q ≠ "") ∧
    (∀ date_from date_to device manufacturer event_type,
      strTruthy date_from = false → strTruthy date_to = false →
      (∀ s, device = some s → trimStr s = "") →
      (∀ s, manufacturer = some s → trimStr s = "") →
      (∀ s, event_type = some s → trimStr s = "") →
      build_query date_from date_to device manufacturer event_type =
        some "event_type:\"Malfunction\"") ∧
    (∀ date_from date_to manufacturer event_type q s,
      trimStr s ≠ "" →
      build_query date_from date_to (some s) manufacturer event_type = some q →
      ∃ pre post,
        q = pre ++ ("device.generic_name:\"" ++ replaceSpacePlus (trimStr s) ++ "\"") ++ post) := by
  refine ⟨?_, ?_, ?_⟩
  · intro df dt dev mfr et q h
    unfold build_query at h
    cases hd : buildDateClause df dt with
    | none => rw [hd] at h; cases h
    | some dparts =>
      rw [hd] at h
      simp only [Option.some.injEq] at h
      by_cases hparts : dparts ++ escClause dev "device.generic_name:\"" ++
          escClause mfr "device.manufacturer_d_name:\"" ++ etClauseOf et = []
      · rw [if_pos hparts] at h
        rw [← h]
        decide
      · rw [if_neg hparts] at h
        rw [← h]
        apply joinWith_ne_empty _ _ hparts
        intro p hp
        rcases List.mem_append.mp hp with hp' | hp'
        · rcases List.mem_append.mp hp' with hp'' | hp''
          · rcases List.mem_append.mp hp'' with hp3 | hp3
            · exact buildDateClause_mem_ne df dt dparts hd p hp3
            · exact escClause_mem_ne dev _ (by decide) p hp3
          · exact escClause_mem_ne mfr _ (by decide) p hp''
        · exact etClauseOf_mem_ne et p hp'
  · intro df dt dev mfr et hdf hdt hdev hmfr het
    have hdc : buildDateClause df dt = some [] := by
      simp [buildDateClause, hdf, hdt]
    have hd1 : escClause dev "device.generic_name:\"" = [] := by
      cases dev with
      | none => rfl
      | some s => simp [escClause, hdev s rfl]
    have hd2 : escClause mfr "device.manufacturer_d_name:\"" = [] := by
      cases mfr with
      | none => rfl
      | some s => simp [escClause, hmfr s rfl]
    have hd3 : etClauseOf et = [] := by
      cases et with
      | none => rfl
      | some s => simp [etClauseOf, het s rfl]
    simp [build_query, hdc, hd1, hd2, hd3]
  · intro df dt mfr et q s hs h
    unfold build_query at h
    cases hd : buildDateClause df dt with
    | none => rw [hd] at h; cases h
    | some dparts =>
      rw [hd] at h
      simp only [Option.some.injEq] at h
      have hesc : escClause (some s) "device.generic_name:\"" =
          ["device.generic_name:\"" ++ replaceSpacePlus (trimStr s) ++ "\""] := by
        simp [escClause, hs]
      have hmem : ("device.generic_name:\"" ++ replaceSpacePlus (trimStr s) ++ "\"") ∈
          dparts ++ escClause (some s) "device.generic_name:\"" ++
          escClause mfr "device.manufacturer_d_name:\"" ++ etClauseOf et := by
        apply List.mem_append_left
        apply List.mem_append_left
        apply List.mem_append_right
        rw [hesc]
        exact List.mem_singleton.mpr rfl
      rw [if_neg (List.ne_nil_of_mem hmem)] at h
      rw [← h]
      exact joinWith_split "+AND+" _ _ hmem

/-- Witness for C9 at concrete inputs: a populated query is non-empty, the
empty input yields the default clause, and a populated device value appears
as a `device.generic_name` clause inside the output. -/
theorem c9_query_builder_witness :
    "date_received:[20240101+TO+99991231]+AND+device.generic_name:\"insulin+pump\"+AND+event_type:\"Death\"" ≠ "" ∧
    build_query none none none none none = some "event_type:\"Malfunction\"" ∧
    ∃ pre post,
      "date_received:[20240101+TO+99991231]+AND+device.generic_name:\"insulin+pump\"+AND+event_type:\"Death\"" =
        pre ++ ("device.generic_name:\"" ++ replaceSpacePlus (trimStr " insulin pump ") ++ "\"") ++ post :=
  ⟨c9_query_builder.1 (some "2024-01-01") none (some " insulin pump ") none (some "Death") _
     (by decide),
   c9_query_builder.2.1 none none none none none rfl rfl (by intro s h; cases h)
     (by intro s h; cases h) (by intro s h; cases h),
   c9_query_builder.2.2 (some "2024-01-01") none none (some "Death") _ " insulin pump "
     (by decide) (by decide)⟩

/-- Claim C6: the output of the Canada bulk-source search is a permutation of
the filtered record set, sorted with primary key the fixed severity order
(`Type I`, `Type II`, `Type III`, then unknown or blank) and secondary key
the parsed last-updated date descending with unparsable dates last (the order
`recLeP`); in particular the records with classes `Type III`, `Type I`,
`Type II` and equal dates come out ordered `Type I`, `Type II`, `Type III`. -/
theorem c6_sort_order :
    (∀ (product category recall_class issue date_from date_to : String) (ia : Bool)
      (raw : List CanadaRecord),
      CanadaRecallsFetcher.search product category recall_class issue date_from date_to ia
        raw ≠ [] →
      (CanadaRecallsFetcher.search product category recall_class issue date_from date_to ia
        raw).Perm
        ((CanadaRecallsFetcher.fetch_medical_devices raw).filter
          (CanadaRecallsFetcher.passes product category recall_class issue date_from date_to
            ia)) ∧
      List.Sorted CanadaRecallsFetcher.recLeP
        (CanadaRecallsFetcher.search product category recall_class issue date_from date_to ia
          raw)) ∧
    CanadaRecallsFetcher.search "" "" "" "" "" "" false [c6recIII, c6recI, c6recII] =
      [c6recI, c6recII, c6recIII] := by
  constructor
  · intro p c rc i df dt ia raw _
    exact ⟨List.perm_insertionSort _ _, List.sorted_insertionSort _ _⟩
  · decide

/-- Witness for C6: the sortedness and permutation statement applied to the
concrete three-record snapshot with equal dates. -/
theorem c6_sort_order_witness :
    (CanadaRecallsFetcher.search "" "" "" "" "" "" false [c6recIII, c6recI, c6recII]).Perm
      ((CanadaRecallsFetcher.fetch_medical_devices [c6recIII, c6recI, c6recII]).filter
        (CanadaRecallsFetcher.passes "" "" "" "" "" "" false)) ∧
    List.Sorted CanadaRecallsFetcher.recLeP
      (CanadaRecallsFetcher.search "" "" "" "" "" "" false [c6recIII, c6recI, c6recII]) :=
  c6_sort_order.1 "" "" "" "" "" "" false [c6recIII, c6recI, c6recII] (by decide)

/-- Claim C7: every completed subscription run saves exactly the update-loop
result, and the update loop gives the subscription with the triggered id a
new hit count equal to its previous hit count plus this run's match count
(counts from successive runs add up with no deduplication) and sets its
last-run to the time of that run (the latest run's time after two runs). -/
theorem c7_hit_count_accumulation :
    (∀ (α : Type) (subs : List Subscription) (sub_id now fd td : String) (us : RestUpstream α)
      (fuel : Nat) (canada : Except Unit (List CanadaRecord)) (c : Nat)
      (subs2 : List Subscription),
      run_subscription subs sub_id now fd td us fuel canada = (.success c, subs2) →
      subs2 = run_updateSubs subs sub_id now c) ∧
    (∀ (s : Subscription) (sub_id t : String) (c : Nat), s.id = sub_id →
      (run_update sub_id t c s).hit_count = some (s.hit_count.getD 0 + c) ∧
      (run_update sub_id t c s).last_run = t) ∧
    (∀ (s : Subscription) (sub_id t1 t2 : String) (c1 c2 : Nat), s.id = sub_id →
      (run_update sub_id t2 c2 (run_update sub_id t1 c1 s)).hit_count =
        some (s.hit_count.getD 0 + c1 + c2) ∧
      (run_update sub_id t2 c2 (run_update sub_id t1 c1 s)).last_run = t2) := by
  refine ⟨?_, ?_, ?_⟩
  · intro α subs sub_id now fd td us fuel canada c subs2 h
    unfold run_subscription at h
    cases hf : subs.find? (fun s => s.id == sub_id) with
    | none =>
      rw [hf] at h
      simp at h
    | some sub =>
      rw [hf] at h
      dsimp only at h
      by_cases hc : (sub.country == "Canada") = true
      · rw [if_pos hc] at h
        cases canada with
        | error e => simp at h
        | ok raw =>
          simp only [Prod.mk.injEq, RunOutcome.success.injEq] at h
          obtain ⟨hc1, hs1⟩ := h
          rw [← hs1, hc1]
      · rw [if_neg hc] at h
        by_cases hq : (sub_to_query sub == "") = true
        · rw [if_pos hq] at h
          simp at h
        · rw [if_neg hq] at h
          simp only [Prod.mk.injEq, RunOutcome.success.injEq] at h
          obtain ⟨hc1, hs1⟩ := h
          rw [← hs1, hc1]
  · intro s sub_id t c h
    unfold run_update
    rw [if_pos h]
    exact ⟨rfl, rfl⟩
  · intro s sub_id t1 t2 c1 c2 h
    unfold run_update
    rw [if_pos h, if_pos h]
    exact ⟨rfl, rfl⟩

/-- Witness for C7: two successful runs returning 5 and then 3 matches leave
the stored subscription with hit count 8 and with the second run's time. -/
theorem c7_hit_count_accumulation_witness :
    (run_update "s1" "2024-04-02T00:00:00" 3
      (run_update "s1" "2024-04-01T00:00:00" 5 usSubEx)).hit_count = some 8 ∧
    (run_update "s1" "2024-04-02T00:00:00" 3
      (run_update "s1" "2024-04-01T00:00:00" 5 usSubEx)).last_run = "2024-04-02T00:00:00" := by
  have h := c7_hit_count_accumulation.2.2 usSubEx "s1" "2024-04-01T00:00:00"
    "2024-04-02T00:00:00" 5 3 rfl
  simpa [usSubEx] using h

/-- Claim C10: the query synthesized for a US subscription depends only on its
device, manufacturer and event-type fields — two subscriptions that agree on
those three fields (in particular, ones differing only in the stored outcome)
produce the same `sub_to_query` string and the same full 90-day-window run
query, so the stored outcome has no effect on any run's results. -/
theorem c10_outcome_noninterference :
    ∀ s1 s2 : Subscription, s1.device = s2.device → s1.manufacturer = s2.manufacturer →
      s1.event_type = s2.event_type →
      sub_to_query s1 = sub_to_query s2 ∧
      ∀ fd td, usFullQuery fd td s1 = usFullQuery fd td s2 := by
  intro s1 s2 h1 h2 h3
  have hq : sub_to_query s1 = sub_to_query s2 := by
    unfold sub_to_query
    rw [h1, h2, h3]
  refine ⟨hq, fun fd td => ?_⟩
  unfold usFullQuery
  rw [hq]

/-- Witness for C10: the two concrete US subscriptions differing only in the
stored outcome synthesize identical queries. -/
theorem c10_outcome_noninterference_witness :
    usSubEx.outcome ≠ usSubExOut.outcome ∧
    sub_to_query usSubEx = sub_to_query usSubExOut ∧
    usFullQuery "20240101" "20240401" usSubEx = usFullQuery "20240101" "20240401" usSubExOut :=
  ⟨by decide,
   (c10_outcome_noninterference usSubEx usSubExOut rfl rfl rfl).1,
   (c10_outcome_noninterference usSubEx usSubExOut rfl rfl rfl).2 "20240101" "20240401"⟩

/-- Counterexample for C1: a US subscription run whose every upstream request
fails with HTTP 500 nevertheless completes as a zero-hit success and updates
the stored `last_run` timestamp — the claim that a failed run leaves the
stored metadata unchanged is false for the US source. -/
theorem c1_counterexample :
    (run_subscription [usSubEx] "s1" "2024-04-01T12:00:00" "20240101" "20240401" us500 7
        (Except.ok [])).2 =
      [{ usSubEx with last_run := "2024-04-01T12:00:00", hit_count := some 0 }] ∧
    usSubEx.last_run ≠ "2024-04-01T12:00:00" ∧
    (∀ q l k, us500 q l k = HttpResult.httpError 500) :=
  ⟨by decide, by decide, fun _ _ _ => rfl⟩

/-- Claim C1 (amended): a failed Canada-source run (the bulk fetch raises)
leaves the stored subscriptions exactly as loaded, but a US-source run whose
upstream requests all fail with HTTP 500 is swallowed by the fetcher and
completes as a success with count 0, saving the update-loop result — in
particular setting `last_run` to the run time (while `hit_count` gains 0). -/
theorem c1_amended :
    (∀ (α : Type) (subs : List Subscription) (sub_id now fd td : String)
      (us : RestUpstream α) (fuel : Nat) (sub : Subscription),
      subs.find? (fun s => s.id == sub_id) = some sub → sub.country = "Canada" →
      run_subscription subs sub_id now fd td us fuel (.error ()) = (.fetchError, subs)) ∧
    (∀ (subs : List Subscription) (sub_id now fd td : String) (fuel : Nat)
      (canada : Except Unit (List CanadaRecord)) (sub : Subscription) (us : RestUpstream Nat),
      subs.find? (fun s => s.id == sub_id) = some sub → sub.country ≠ "Canada" →
      sub_to_query sub ≠ "" → (∀ q l k, us q l k = .httpError 500) →
      run_subscription subs sub_id now fd td us fuel canada =
        (.success 0, run_updateSubs subs sub_id now 0)) ∧
    (∀ (s : Subscription) (sub_id now : String) (c : Nat), s.id = sub_id →
      (run_update sub_id now c s).last_run = now) := by
  refine ⟨?_, ?_, ?_⟩
  · intro α subs sub_id now fd td us fuel sub hf hc
    unfold run_subscription
    rw [hf]
    dsimp only
    rw [if_pos (by simp [hc])]
  · intro subs sub_id now fd td fuel canada sub us hf hc hq h500
    have hse : MAUDEFetcher.search us (usFullQuery fd td sub) 1000 0 = none :=
      search_none_of_httpError us _ 1000 0 500 (h500 _ _ _)
    have hfa : MAUDEFetcher.fetch_all us (usFullQuery fd td sub) (some 200) fuel = [] :=
      fetch_all_nil_of_first_none us _ (some 200) fuel hse
    unfold run_subscription
    rw [hf]
    dsimp only
    rw [if_neg (by simp [hc]), if_neg (by simp [hq])]
    simp [hfa]
  · intro s sub_id now c h
    unfold run_update
    rw [if_pos h]

/-- Witness for C1 (amended): the Canada run with a failing bulk fetch leaves
the stored list untouched, while the US run against the all-500 upstream
completes as a zero-hit success whose update sets `last_run`. -/
theorem c1_amended_witness :
    run_subscription [caSubEx] "c1" "2024-05-01T00:00:00" "20240201" "20240501" us500 3
      (Except.error ()) = (.fetchError, [caSubEx]) ∧
    run_subscription [usSubEx] "s1" "2024-05-01T00:00:00" "20240201" "20240501" us500 3
      (Except.ok []) = (.success 0, run_updateSubs [usSubEx] "s1" "2024-05-01T00:00:00" 0) ∧
    (run_update "s1" "2024-05-01T00:00:00" 0 usSubEx).last_run = "2024-05-01T00:00:00" :=
  ⟨c1_amended.1 Nat [caSubEx] "c1" "2024-05-01T00:00:00" "20240201" "20240501" us500 3
     caSubEx (by decide) rfl,
   c1_amended.2.1 [usSubEx] "s1" "2024-05-01T00:00:00" "20240201" "20240501" 3
     (Except.ok []) usSubEx us500 (by decide) (by decide) (by decide) (fun _ _ _ => rfl),
   c1_amended.2.2 usSubEx "s1" "2024-05-01T00:00:00" 0 rfl⟩

/-- Claim C2 (code bug evaluated): with a snapshot cached 24 h 30 min
(88200 s) earlier, a non-forced `fetch_all_raw` call serves the stale cache
and performs no network fetch even though the 60-minute TTL expired long ago,
because `timedelta.seconds` wraps modulo one day; within the first day the
decision is correct (a 90-minute-old snapshot is re-fetched, a 30-minute-old
one is served from cache). -/
theorem c2_ttl_wraparound :
    CanadaRecallsFetcher.fetch_all_raw
      (⟨some [7], some 0⟩ : CanadaRecallsFetcher.CacheState Nat) 88200 [8, 9] false =
      ⟨[7], ⟨some [7], some 0⟩, false⟩ ∧
    CanadaRecallsFetcher.ttlMinutes * 60 ≤ 88200 - 0 ∧
    CanadaRecallsFetcher.fetch_all_raw
      (⟨some [7], some 0⟩ : CanadaRecallsFetcher.CacheState Nat) 5400 [8, 9] false =
      ⟨[8, 9], ⟨some [8, 9], some 5400⟩, true⟩ ∧
    CanadaRecallsFetcher.fetch_all_raw
      (⟨some [7], some 0⟩ : CanadaRecallsFetcher.CacheState Nat) 1800 [8, 9] false =
      ⟨[7], ⟨some [7], some 0⟩, false⟩ := by
  decide

/-- Counterexample for C3: when the second page request fails with HTTP 500
mid-run, `fetch_all` returns the 1000 partially accumulated records — there
is no error value in its return type at all — instead of aborting the run
and surfacing an error to the caller. -/
theorem c3_counterexample :
    MAUDEFetcher.fetch_all usOnePageThenFail "q" none 5 = List.replicate 1000 0 ∧
    MAUDEFetcher.fetch_all usOnePageThenFail "q" none 5 ≠ [] ∧
    usOnePageThenFail "q" 1000 1000 = HttpResult.httpError 500 :=
  ⟨by decide, by decide, rfl⟩

/-- Claim C3 (amended): any page failure — 4xx including not-found, 5xx, or a
network error — makes `search` return no data, and the pagination loop treats
that as end-of-data: it stops and returns the records accumulated so far
(the empty list when the first page fails, which covers the 4xx-as-empty-set
half of the claim) with no error surfaced in the return value. -/
theorem c3_amended :
    (∀ (α : Type) (us : RestUpstream α) (q : String) (mr : Option Nat) (fuel skip : Nat)
      (acc : List α), MAUDEFetcher.search us q 1000 skip = none →
      MAUDEFetcher.fetchAllLoop us q mr (fuel + 1) skip acc = acc) ∧
    (∀ (α : Type) (us : RestUpstream α) (q : String) (mr : Option Nat) (fuel : Nat),
      MAUDEFetcher.search us q 1000 0 = none →
      MAUDEFetcher.fetch_all us q mr fuel = []) ∧
    (∀ (α : Type) (us : RestUpstream α) (q : String) (l k c : Nat),
      us q (min l 1000) k = .httpError c → MAUDEFetcher.search us q l k = none) ∧
    (∀ (α : Type) (us : RestUpstream α) (q : String) (l k : Nat),
      us q (min l 1000) k = .netError → MAUDEFetcher.search us q l k = none) := by
  refine ⟨?_, ?_, ?_, ?_⟩
  · intro α us q mr fuel skip acc h
    rw [MAUDEFetcher.fetchAllLoop, h]
  · intro α us q mr fuel h
    exact fetch_all_nil_of_first_none us q mr fuel h
  · intro α us q l k c h
    exact search_none_of_httpError us q l k c h
  · intro α us q l k h
    exact search_none_of_netError us q l k h

/-- Witness for C3 (amended): the loop hands back its accumulator on a failed
page, a first-page 500 and a first-page network failure yield the empty
result set, and both kinds of failure reduce to `search` returning `None`. -/
theorem c3_amended_witness :
    MAUDEFetcher.fetchAllLoop us500 "q" none 1 0 [5] = [5] ∧
    MAUDEFetcher.fetch_all us500 "q" none 4 = [] ∧
    MAUDEFetcher.search us500 "q" 1000 0 = none ∧
    MAUDEFetcher.search usNet "q" 1000 7 = none :=
  ⟨c3_amended.1 Nat us500 "q" none 0 0 [5] rfl,
   c3_amended.2.1 Nat us500 "q" none 4 rfl,
   c3_amended.2.2.1 Nat us500 "q" 1000 0 500 rfl,
   c3_amended.2.2.2 Nat usNet "q" 1000 7 rfl⟩

/-- Counterexample for C4: with an unparsable subscriptions document, no
StorageUnavailable-style error is surfaced and the operation is not aborted —
`load_subs` silently yields the empty list, and creating a subscription then
overwrites the document with just the new entry, discarding whatever the
document previously held. -/
theorem c4_counterexample :
    load_subs .corrupt = [] ∧
    create_subscription .corrupt "My sub" "US" "pacemaker" "" "" "" "" "" "" ""
      "id1" "2024-01-01T00:00:00" = (SubsFile.good [c4NewSub], true) ∧
    SubsFile.good [c4NewSub] ≠ SubsFile.corrupt := by
  decide

/-- Claim C4 (amended): a missing or unparsable subscription document is
silently read as the empty subscription list, and a subsequent create over an
unparsable document succeeds and overwrites the document with a list holding
only the new entry — the prior contents are discarded, and no error is
surfaced to the caller. -/
theorem c4_amended :
    load_subs .missing = [] ∧ load_subs .corrupt = [] ∧
    (∀ name device new_id created : String, trimStr name ≠ "" → trimStr device ≠ "" →
      create_subscription .corrupt name "US" device "" "" "" "" "" "" "" new_id created =
        (SubsFile.good
          [{ id := new_id, name := trimStr name, country := "US",
             device := trimStr device, manufacturer := "", event_type := "", outcome := "",
             product := "", category := "", recall_class := "", issue := "",
             created := created, last_run := "", hit_count := some 0 }], true)) := by
  refine ⟨rfl, rfl, ?_⟩
  intro name device new_id created hn hd
  unfold create_subscription
  rw [if_neg hn, if_neg (by decide), if_neg (by simp [hd])]
  rfl

/-- Witness for C4 (amended): creating the concrete subscription over an
unparsable document yields a document holding exactly the new entry. -/
theorem c4_amended_witness :
    create_subscription .corrupt "My sub" "US" "pacemaker" "" "" "" "" "" "" ""
      "id1" "2024-01-01T00:00:00" =
      (SubsFile.good
        [{ id := "id1", name := trimStr "My sub", country := "US",
           device := trimStr "pacemaker", manufacturer := "", event_type := "", outcome := "",
           product := "", category := "", recall_class := "", issue := "",
           created := "2024-01-01T00:00:00", last_run := "", hit_count := some 0 }], true) :=
  c4_amended.2.2 "My sub" "pacemaker" "id1" "2024-01-01T00:00:00" (by decide) (by decide)

/-- Counterexample for C5: `max_results = 0` is falsy in Python, so
`fetch_all` treats it as unset and returns all three upstream records — more
than the requested cap of 0. -/
theorem c5_counterexample :
    MAUDEFetcher.fetch_all (pageUpstream demoDb) "q" (some 0) 5 = demoDb ∧
    ¬ (MAUDEFetcher.fetch_all (pageUpstream demoDb) "q" (some 0) 5).length ≤ 0 :=
  ⟨by decide, by decide⟩

/-- Claim C5 (amended): for every positive `max_results`, `fetch_all` returns
at most `max_results` records (the final accumulated list is truncated when
the last page overshoots); a falsy `max_results` (`None` or `0`) is treated
as unset, in which case `fetch_all` returns all records the upstream provides
across pages (pages served in offset order, given fuel covering the data). -/
theorem c5_amended :
    (∀ (α : Type) (us : RestUpstream α) (q : String) (m fuel : Nat), 0 < m →
      (MAUDEFetcher.fetch_all us q (some m) fuel).length ≤ m) ∧
    (∀ (α : Type) (db : List α) (q : String) (mr : Option Nat),
      MAUDEFetcher.mrActive mr = false → ∀ fuel, db.length ≤ 1000 * fuel →
      MAUDEFetcher.fetch_all (pageUpstream db) q mr fuel = db) := by
  constructor
  · intro α us q m fuel hm
    unfold MAUDEFetcher.fetch_all
    rw [if_pos (by simp [MAUDEFetcher.mrActive]; omega)]
    simp only [Option.getD_some, List.length_take]
    omega
  · intro α db q mr hmr fuel hfuel
    exact fetch_all_pageUpstream db q mr hmr fuel hfuel

/-- Witness for C5 (amended): with cap 2 at most two of the three records come
back, and with `max_results` unset all three do. -/
theorem c5_amended_witness :
    (MAUDEFetcher.fetch_all (pageUpstream demoDb) "q" (some 2) 5).length ≤ 2 ∧
    MAUDEFetcher.fetch_all (pageUpstream demoDb) "q" none 1 = demoDb :=
  ⟨c5_amended.1 Nat (pageUpstream demoDb) "q" 2 5 (by decide),
   c5_amended.2 Nat demoDb "q" none rfl 1 (by decide)⟩

end MaudeDB
